import Mathlib

/-!
Verification of the transfer-flow orchestration hooks of the starkgate
front-end (src/unnamed/part_000): the initiation variant useTransferToL1,
the completion variant useCompleteTransferToL1, and the decimal-scaling
utilities.  The hooks are shallowly embedded as trace-producing functions:
every observable action (progress emission, tracking call, listener
registration/removal, external chain call, terminal data/error delivery)
is recorded as an event in the order the code performs it.  External
nondeterminism (rejection of the chain calls, the signing callback, the
withdrawal-event listener) is an explicit input.
-/

namespace StarkGate

/-! ### Enumerations (imported by the hooks from the enums module) -/

/-- Steps used by the two flows: TransferToL1Steps uses CONFIRM_TX and
INITIATE_WITHDRAW; CompleteTransferToL1Steps uses CONFIRM_TX and WITHDRAW. -/
inductive TransferStep
  | CONFIRM_TX
  | INITIATE_WITHDRAW
  | WITHDRAW
deriving DecidableEq, Repr

/-- Modelled from the spec: the TransferError error-kind enumeration lives in
the enums module, which is not part of the provided sources.  Section 7 of the
spec lists the kinds MissingAccount, UnknownToken, TransactionError and
ListenerError.  The hooks in the provided source only ever construct
TRANSACTION_ERROR (progressOptions.error(TransferError.TRANSACTION_ERROR, ex)). -/
inductive TransferError
  | TRANSACTION_ERROR
  | MISSING_ACCOUNT
  | UNKNOWN_TOKEN
  | LISTENER_ERROR
deriving DecidableEq, Repr

/-- ActionType.TRANSFER_TO_L1, tagging the record passed to handleData. -/
inductive ActionType
  | TRANSFER_TO_L1
deriving DecidableEq, Repr

/-! ### Data model -/

/-- A token as resolved by useSelectedToken / getL1Token:
{decimals, bridgeAddress, name, symbol}. -/
structure Token where
  decimals : Nat
  bridgeAddress : String
  name : String
  symbol : String
deriving DecidableEq, Repr

/-- The transfer object handed to the completion variant: {symbol, amount, l2hash}. -/
structure Transfer where
  symbol : String
  amount : String
  l2hash : String
deriving DecidableEq, Repr

/-- The record passed to handleData by the initiation variant:
{type, sender, recipient, name, symbol, amount, l2hash}.  Account values are
Option String: none models a JavaScript undefined account flowing through
unchecked. -/
structure L1Record where
  type : ActionType
  sender : Option String
  recipient : Option String
  name : String
  symbol : String
  amount : String
  l2hash : String
deriving DecidableEq, Repr

/-- The record passed to handleData by the completion variant:
the spread {...transfer, l1hash}. -/
structure CRecord where
  transfer : Transfer
  l1hash : String
deriving DecidableEq, Repr

/-- One observable action of a hook run, in program order. -/
inductive Event
  | progress (step : TransferStep)
  | trackInitiated
  | trackSuccess (hash : String)
  | trackError (cause : String)
  | handleData1 (r : L1Record)
  | handleDataC (r : CRecord)
  | handleError (kind : TransferError) (cause : String)
  | addListener
  | removeListener
  | submitCall
  | waitCall
deriving DecidableEq, Repr

/-- True for the terminal outcome deliveries: handleData (Success) and
handleError (Failure). -/
def Event.isOutcome : Event → Bool
  | .handleData1 _ => true
  | .handleDataC _ => true
  | .handleError _ _ => true
  | _ => false

/-- True for the Success deliveries (handleData of either variant). -/
def Event.isData : Event → Bool
  | .handleData1 _ => true
  | .handleDataC _ => true
  | _ => false

/-- True for the Failure delivery handleError. -/
def Event.isFailure : Event → Bool
  | .handleError _ _ => true
  | _ => false

/-- True for the terminal TrackingSink records trackSuccess and trackError. -/
def Event.isTrackTerminal : Event → Bool
  | .trackSuccess _ => true
  | .trackError _ => true
  | _ => false

def isTrackInitiated : Event → Bool
  | .trackInitiated => true
  | _ => false

def isTrackError : Event → Bool
  | .trackError _ => true
  | _ => false

def isSubmitCall : Event → Bool
  | .submitCall => true
  | _ => false

def isAddListener : Event → Bool
  | .addListener => true
  | _ => false

def isRemoveListener : Event → Bool
  | .removeListener => true
  | _ => false

def isMissingAccountError : Event → Bool
  | .handleError .MISSING_ACCOUNT _ => true
  | _ => false

def isUnknownTokenError : Event → Bool
  | .handleError .UNKNOWN_TOKEN _ => true
  | _ => false

/-- Number of events of a trace satisfying p. -/
def countEv (p : Event → Bool) (t : List Event) : Nat := (t.filter p).length

/-- The steps carried by the progress events of a trace, in order. -/
def progressSteps (t : List Event) : List TransferStep :=
  t.filterMap fun e =>
    match e with
    | .progress s => some s
    | _ => none

/-! ### Initiation variant: useTransferToL1

The callback destructures selectedToken before the try block (a missing token
throws to the caller with nothing emitted), then inside try: emits the
CONFIRM_TX progress, runs sendInitiateWithdraw (trackInitiated, then the
external initiateWithdraw call), emits the INITIATE_WITHDRAW progress, awaits
waitForTransaction, then trackSuccess and handleData.  The catch block runs
trackError and handleError(TRANSACTION_ERROR, ex).  External behaviour is an
input: initRes is the result of initiateWithdraw (ok carries the transaction
hash), waitRes the result of waitForTransaction. -/

/-- Result of one run of the useTransferToL1 callback: the rejection
propagated to the caller, if any, and the emitted trace. -/
structure L1RunResult where
  thrown : Option String
  trace : List Event
deriving DecidableEq, Repr

def useTransferToL1Call (selectedToken : Option Token)
    (l2Account l1Account : Option String) (amount : String)
    (initRes : Except String String) (waitRes : Except String Unit) :
    L1RunResult :=
  match selectedToken with
  | none => ⟨some "TypeError: cannot destructure selectedToken", []⟩
  | some tok =>
    let pre : List Event := [.progress .CONFIRM_TX, .trackInitiated, .submitCall]
    match initRes with
    | .error e => ⟨none, pre ++ [.trackError e, .handleError .TRANSACTION_ERROR e]⟩
    | .ok l2hash =>
      let pre2 := pre ++ [.progress .INITIATE_WITHDRAW, .waitCall]
      match waitRes with
      | .error e => ⟨none, pre2 ++ [.trackError e, .handleError .TRANSACTION_ERROR e]⟩
      | .ok _ =>
        ⟨none, pre2 ++ [.trackSuccess l2hash,
          .handleData1 ⟨.TRANSFER_TO_L1, l2Account, l1Account,
            tok.name, tok.symbol, amount, l2hash⟩]⟩

/-! ### Completion variant: useCompleteTransferToL1

The try block emits the CONFIRM_TX progress, registers the withdrawal
listener, then runs sendWithdrawal: trackInitiated, resolution of the token
by getL1Token (a miss throws inside try), then the external withdraw call.
Afterwards the run is driven by asynchronous signals: the signing callback
onTransactionHash (error or hash), the event listener onWithdrawal (error or
withdrawal event, delivered only while the listener is registered), and a
rejection of the withdraw promise (handled by the catch block).  onError
unconditionally runs removeListener, trackError and
handleError(TRANSACTION_ERROR, error). -/

inductive CSignal
  | txHashOk (hash : String)
  | txHashErr (e : String)
  | eventOk (l1hash : String)
  | eventErr (e : String)
  | promiseReject (e : String)
deriving DecidableEq, Repr

/-- Completion-run state: whether the withdrawal listener is registered, and
the trace so far. -/
structure CState where
  active : Bool
  trace : List Event
deriving DecidableEq, Repr

/-- The onError closure of useCompleteTransferToL1: removeListener, then
trackError, then handleError(TRANSACTION_ERROR, error).  No guard prevents it
from running more than once. -/
def onErrorRun (e : String) (s : CState) : CState :=
  ⟨false, s.trace ++ [.removeListener, .trackError e, .handleError .TRANSACTION_ERROR e]⟩

/-- One asynchronous signal delivered to a completion run.  Listener signals
(eventOk/eventErr) reach onWithdrawal only while the listener is registered;
the signing callback and the promise rejection are not guarded by it. -/
def cstep (transfer : Transfer) (s : CState) : CSignal → CState
  | .txHashOk _ => ⟨s.active, s.trace ++ [.progress .WITHDRAW]⟩
  | .txHashErr e => onErrorRun e s
  | .eventOk l1hash =>
    if s.active then
      ⟨s.active, s.trace ++ [.trackSuccess l1hash, .handleDataC ⟨transfer, l1hash⟩]⟩
    else s
  | .eventErr e => if s.active then onErrorRun e s else s
  | .promiseReject e => onErrorRun e s

/-- The synchronous part of a completion run, up to (and including) the
external withdraw call, or up to the caught throw when getL1Token cannot
resolve the symbol. -/
def completeSync (getL1Token : String → Option Token) (transfer : Transfer) :
    CState :=
  let pre : List Event := [.progress .CONFIRM_TX, .addListener, .trackInitiated]
  match getL1Token transfer.symbol with
  | none => onErrorRun "TypeError: cannot destructure getL1Token result" ⟨true, pre⟩
  | some _ => ⟨true, pre ++ [.submitCall]⟩

/-- A whole completion run: the synchronous part followed by a sequence of
asynchronous signals. -/
def completeRun (getL1Token : String → Option Token) (transfer : Transfer)
    (signals : List CSignal) : CState :=
  signals.foldl (cstep transfer) (completeSync getL1Token transfer)

/-! ### Amount utilities (the second source part)

JavaScript numbers are modelled as exact rationals; powerOf uses a natural
exponent (the supported range of decimals is 0 to 18, where Math.pow(10, d)
is exact). -/

def TEN_BASE : ℚ := 10

def DEFAULT_DECIMALS : Nat := 18

def powerOf (decimals : Nat) : ℚ := TEN_BASE ^ decimals

def toDecimals (value : ℚ) (decimals : Nat := DEFAULT_DECIMALS) : ℚ :=
  value * powerOf decimals

def fromDecimals (value : ℚ) (decimals : Nat := DEFAULT_DECIMALS) : ℚ :=
  value / powerOf decimals

/-! ### Concrete fixtures used by closed counterexamples -/

def tok0 : Token := ⟨18, "0xbridgeaddr", "Ether", "ETH"⟩

def transfer0 : Transfer := ⟨"ETH", "5", "0xabc"⟩

/-! ### Trace predicates and invariants for the completion variant -/

/-- A trace in which no Success delivery (handleData) occurs after any
Failure delivery (handleError). -/
def noDataAfterFailure : List Event → Bool
  | [] => true
  | e :: rest =>
    if e.isFailure then rest.all (fun x => !x.isData) else noDataAfterFailure rest

/-- Events that the asynchronous part of a completion run can append:
everything except listener registration, the initiated tracking call, the
external calls and the CONFIRM_TX progress, which belong to the synchronous
part only. -/
def sigEmitted : Event → Bool
  | .progress .WITHDRAW => true
  | .removeListener => true
  | .trackError _ => true
  | .trackSuccess _ => true
  | .handleDataC _ => true
  | .handleError _ _ => true
  | _ => false

/-- Invariant of a completion run: no Success follows a Failure in the
trace, and while the listener is still registered no Failure has been
delivered yet (onError always removes the listener). -/
def CInv (s : CState) : Prop :=
  noDataAfterFailure s.trace = true ∧
    (s.active = true → s.trace.all (fun e => !e.isFailure) = true)

lemma noDataAfterFailure_of_all_nodata :
    ∀ t : List Event, t.all (fun e => !e.isData) = true →
      noDataAfterFailure t = true := by
  intro t ht
  induction t with
  | nil => rfl
  | cons e rest ih =>
    rw [List.all_cons, Bool.and_eq_true] at ht
    cases hfe : e.isFailure
    · simp only [noDataAfterFailure, hfe, Bool.false_eq_true, if_false]
      exact ih ht.2
    · simp only [noDataAfterFailure, hfe, if_true]
      exact ht.2

lemma noDataAfterFailure_of_nofailure :
    ∀ t : List Event, t.all (fun e => !e.isFailure) = true →
      noDataAfterFailure t = true := by
  intro t ht
  induction t with
  | nil => rfl
  | cons e rest ih =>
    rw [List.all_cons, Bool.and_eq_true] at ht
    have hfe : e.isFailure = false := by
      cases hfe : e.isFailure
      · rfl
      · rw [hfe] at ht
        exact absurd ht.1 (by decide)
    simp only [noDataAfterFailure, hfe, Bool.false_eq_true, if_false]
    exact ih ht.2

lemma noDataAfterFailure_append :
    ∀ t d : List Event, noDataAfterFailure t = true →
      d.all (fun e => !e.isData) = true → noDataAfterFailure (t ++ d) = true := by
  intro t
  induction t with
  | nil =>
    intro d _ hd
    exact noDataAfterFailure_of_all_nodata d hd
  | cons e rest ih =>
    intro d ht hd
    rw [List.cons_append]
    cases hfe : e.isFailure
    · simp only [noDataAfterFailure, hfe, Bool.false_eq_true, if_false] at ht ⊢
      exact ih d ht hd
    · simp only [noDataAfterFailure, hfe, if_true] at ht ⊢
      rw [List.all_append, ht, hd]
      rfl

lemma CInv_onError : ∀ (e : String) (s : CState), CInv s → CInv (onErrorRun e s) := by
  intro e s hs
  refine ⟨?_, ?_⟩
  · show noDataAfterFailure (s.trace ++
      [.removeListener, .trackError e, .handleError .TRANSACTION_ERROR e]) = true
    exact noDataAfterFailure_append _ _ hs.1 rfl
  · intro ha
    exact absurd (show (false : Bool) = true from ha) (by decide)

lemma CInv_step : ∀ (tr : Transfer) (s : CState) (sig : CSignal),
    CInv s → CInv (cstep tr s sig) := by
  intro tr s sig hs
  obtain ⟨h1, h2⟩ := hs
  cases sig with
  | txHashOk h =>
    refine ⟨?_, ?_⟩
    · show noDataAfterFailure (s.trace ++ [.progress .WITHDRAW]) = true
      exact noDataAfterFailure_append _ _ h1 rfl
    · intro ha
      show (s.trace ++ [Event.progress .WITHDRAW]).all (fun e => !e.isFailure) = true
      rw [List.all_append, h2 ha]
      rfl
  | txHashErr e => exact CInv_onError e s ⟨h1, h2⟩
  | eventOk h =>
    cases hact : s.active
    · simpa [cstep, hact] using ⟨h1, h2⟩
    · have htr : s.trace.all (fun e => !e.isFailure) = true := h2 hact
      have hall : (s.trace ++ [Event.trackSuccess h,
          Event.handleDataC ⟨tr, h⟩]).all (fun e => !e.isFailure) = true := by
        rw [List.all_append, htr]
        rfl
      refine ⟨?_, fun _ => ?_⟩
      · simp only [cstep, hact, if_true]
        exact noDataAfterFailure_of_nofailure _ hall
      · simp only [cstep, hact, if_true]
        exact hall
  | eventErr e =>
    cases hact : s.active
    · simpa [cstep, hact] using ⟨h1, h2⟩
    · simp only [cstep, hact, if_true]
      exact CInv_onError e s ⟨h1, h2⟩
  | promiseReject e => exact CInv_onError e s ⟨h1, h2⟩

lemma CInv_foldl : ∀ (tr : Transfer) (sigs : List CSignal) (s : CState),
    CInv s → CInv (sigs.foldl (cstep tr) s) := by
  intro tr sigs
  induction sigs with
  | nil => intro s hs; exact hs
  | cons sig rest ih =>
    intro s hs
    exact ih (cstep tr s sig) (CInv_step tr s sig hs)

lemma CInv_sync : ∀ (g : String → Option Token) (tr : Transfer),
    CInv (completeSync g tr) := by
  intro g tr
  unfold completeSync
  cases hg : g tr.symbol
  · exact ⟨rfl, fun ha => absurd ha (by decide)⟩
  · exact ⟨rfl, fun _ => rfl⟩

lemma cstep_trace_decomp : ∀ (tr : Transfer) (s : CState) (sig : CSignal),
    ∃ d : List Event, (cstep tr s sig).trace = s.trace ++ d ∧ d.all sigEmitted = true := by
  intro tr s sig
  cases sig with
  | txHashOk h => exact ⟨[.progress .WITHDRAW], rfl, rfl⟩
  | txHashErr e =>
    exact ⟨[.removeListener, .trackError e, .handleError .TRANSACTION_ERROR e], rfl, rfl⟩
  | eventOk h =>
    cases hact : s.active
    · exact ⟨[], by simp [cstep, hact], rfl⟩
    · exact ⟨[.trackSuccess h, .handleDataC ⟨tr, h⟩], by simp [cstep, hact], rfl⟩
  | eventErr e =>
    cases hact : s.active
    · exact ⟨[], by simp [cstep, hact], rfl⟩
    · exact ⟨[.removeListener, .trackError e, .handleError .TRANSACTION_ERROR e],
        by simp [cstep, hact, onErrorRun], rfl⟩
  | promiseReject e =>
    exact ⟨[.removeListener, .trackError e, .handleError .TRANSACTION_ERROR e], rfl, rfl⟩

lemma foldl_trace_decomp : ∀ (tr : Transfer) (sigs : List CSignal) (s : CState),
    ∃ d : List Event,
      (sigs.foldl (cstep tr) s).trace = s.trace ++ d ∧ d.all sigEmitted = true := by
  intro tr sigs
  induction sigs with
  | nil => intro s; exact ⟨[], by simp, rfl⟩
  | cons sig rest ih =>
    intro s
    obtain ⟨d1, hd1, hd1a⟩ := cstep_trace_decomp tr s sig
    obtain ⟨d2, hd2, hd2a⟩ := ih (cstep tr s sig)
    refine ⟨d1 ++ d2, ?_, ?_⟩
    · rw [List.foldl_cons, hd2, hd1, List.append_assoc]
    · rw [List.all_append, hd1a, hd2a]
      rfl

lemma filter_nil_of_all : ∀ (p q : Event → Bool),
    (∀ e, q e = true → p e = false) →
    ∀ d : List Event, d.all q = true → d.filter p = [] := by
  intro p q hpq d
  induction d with
  | nil => intro _; rfl
  | cons e rest ih =>
    intro hall
    rw [List.all_cons, Bool.and_eq_true] at hall
    rw [List.filter_cons, hpq e hall.1]
    exact ih hall.2

lemma sigEmitted_no_submit : ∀ e, sigEmitted e = true → isSubmitCall e = false := by
  intro e he
  cases e <;> first | rfl | exact absurd he (by decide)

lemma sigEmitted_no_add : ∀ e, sigEmitted e = true → isAddListener e = false := by
  intro e he
  cases e <;> first | rfl | exact absurd he (by decide)

/-! ### Claims -/

/-- Claim C1, counterexample.  The claim states that the completion variant
delivers exactly one terminal outcome and records exactly one terminal
TrackingSink event even if both completion signals fire, error delivery
being idempotent.  On the code this is false: onError has no one-shot
guard, so when the withdrawal listener reports an error and the signing
callback then also reports an error, the run delivers two Failure outcomes
and records trackError twice. -/
theorem C1_counterexample :
    countEv Event.isOutcome (completeRun (fun _ => some tok0) transfer0
      [.eventErr "listener failure", .txHashErr "signing failure"]).trace = 2
    ∧ countEv Event.isTrackTerminal (completeRun (fun _ => some tok0) transfer0
      [.eventErr "listener failure", .txHashErr "signing failure"]).trace = 2 :=
  ⟨rfl, rfl⟩

/-- Claim C1, amended: a Success is never delivered after a Failure in any
completion run (onError removes the listener, which is the only success
source), and any single terminal signal produces exactly one outcome and one
terminal tracking record (the signing callback's success produces none); but
error delivery is not idempotent — each error signal that reaches onError
emits its own Failure, as the counterexample shows. -/
theorem C1_amended_single_outcome :
    (∀ (g : String → Option Token) (tr : Transfer) (sigs : List CSignal),
      noDataAfterFailure (completeRun g tr sigs).trace = true)
    ∧ (∀ (tok : Token) (tr : Transfer) (h : String),
      countEv Event.isOutcome
          (completeRun (fun _ => some tok) tr [.eventOk h]).trace = 1
      ∧ countEv Event.isTrackTerminal
          (completeRun (fun _ => some tok) tr [.eventOk h]).trace = 1
      ∧ countEv Event.isOutcome
          (completeRun (fun _ => some tok) tr [.txHashOk h]).trace = 0)
    ∧ (∀ (tok : Token) (tr : Transfer) (e : String),
      countEv Event.isOutcome
          (completeRun (fun _ => some tok) tr [.txHashErr e]).trace = 1
      ∧ countEv Event.isTrackTerminal
          (completeRun (fun _ => some tok) tr [.txHashErr e]).trace = 1
      ∧ countEv Event.isOutcome
          (completeRun (fun _ => some tok) tr [.eventErr e]).trace = 1
      ∧ countEv Event.isOutcome
          (completeRun (fun _ => some tok) tr [.promiseReject e]).trace = 1) := by
  refine ⟨?_, ?_, ?_⟩
  · intro g tr sigs
    exact (CInv_foldl tr sigs _ (CInv_sync g tr)).1
  · intro tok tr h
    exact ⟨rfl, rfl, rfl⟩
  · intro tok tr e
    exact ⟨rfl, rfl, rfl, rfl⟩

/-- Claim C2, counterexample.  The claim states that an input lacking a
valid source account or a resolvable token fails with MissingAccount or
UnknownToken respectively, before any external call and with no side
effects.  On the code this is false: in the completion variant an
unresolvable token throws only inside sendWithdrawal — after the progress
event, the listener registration and the initiated tracking event — and is
reported as TRANSACTION_ERROR, not UNKNOWN_TOKEN; and in the initiation
variant a missing account is never checked at all: the external submit call
is made and no MISSING_ACCOUNT failure ever occurs. -/
theorem C2_counterexample :
    (completeRun (fun _ => none) transfer0 []).trace
      = [.progress .CONFIRM_TX, .addListener, .trackInitiated, .removeListener,
         .trackError "TypeError: cannot destructure getL1Token result",
         .handleError .TRANSACTION_ERROR "TypeError: cannot destructure getL1Token result"]
    ∧ countEv isUnknownTokenError (completeRun (fun _ => none) transfer0 []).trace = 0
    ∧ countEv isTrackInitiated (completeRun (fun _ => none) transfer0 []).trace = 1
    ∧ (useTransferToL1Call (some tok0) (some "0xl2acct") none "5"
        (.ok "0xabc") (.ok ())).trace.take 3
      = [.progress .CONFIRM_TX, .trackInitiated, .submitCall]
    ∧ countEv isMissingAccountError (useTransferToL1Call (some tok0) (some "0xl2acct")
        none "5" (.ok "0xabc") (.ok ())).trace = 0 :=
  ⟨rfl, rfl, rfl, rfl, rfl⟩

/-- Claim C2, amended: neither hook performs a precondition check and the
kinds MISSING_ACCOUNT and UNKNOWN_TOKEN are never produced.  A missing
account flows unchecked into the external submit call; an unresolvable
token in the completion variant throws inside the try block after the
progress event, the listener registration and the initiated tracking event,
and is reported as Failure(TRANSACTION_ERROR, cause); in the initiation
variant a missing token throws before the try block and propagates to the
caller with nothing emitted. -/
theorem C2_amended_no_precondition_check :
    ∀ (tr : Transfer) (tok : Token) (l2 : Option String) (amt : String)
      (ir : Except String String) (wr : Except String Unit),
    (completeRun (fun _ => none) tr []).trace
      = [.progress .CONFIRM_TX, .addListener, .trackInitiated, .removeListener,
         .trackError "TypeError: cannot destructure getL1Token result",
         .handleError .TRANSACTION_ERROR "TypeError: cannot destructure getL1Token result"]
    ∧ countEv isSubmitCall (useTransferToL1Call (some tok) l2 none amt ir wr).trace = 1
    ∧ countEv isMissingAccountError
        (useTransferToL1Call (some tok) l2 none amt ir wr).trace = 0
    ∧ countEv isUnknownTokenError
        (useTransferToL1Call (some tok) l2 none amt ir wr).trace = 0
    ∧ useTransferToL1Call none l2 none amt ir wr
      = ⟨some "TypeError: cannot destructure selectedToken", []⟩ := by
  intro tr tok l2 amt ir wr
  refine ⟨rfl, ?_, ?_, ?_, rfl⟩ <;> cases ir <;> cases wr <;> rfl

/-- Claim C3, counterexample.  The claim states that both the error path and
the success path of the completion orchestrator call removeListener by the
terminal state.  On the code this is false: the success branch of
onWithdrawal (trackSuccess, handleData) never calls removeListener, so a run
that terminates successfully leaves the listener registered. -/
theorem C3_counterexample :
    (completeRun (fun _ => some tok0) transfer0 [.eventOk "0xdef"]).active = true
    ∧ countEv isRemoveListener
        (completeRun (fun _ => some tok0) transfer0 [.eventOk "0xdef"]).trace = 0
    ∧ countEv Event.isOutcome
        (completeRun (fun _ => some tok0) transfer0 [.eventOk "0xdef"]).trace = 1 :=
  ⟨rfl, rfl, rfl⟩

/-- Claim C3, amended: only the error path deregisters the listener — onError
always calls removeListener first, before trackError and the Failure delivery,
leaving the listener inactive — while the success path delivers Success
without calling removeListener and leaves the registration state unchanged
(the subscription is leaked on success). -/
theorem C3_amended_removeListener_only_on_error :
    ∀ (e : String) (s : CState) (tr : Transfer) (h : String),
    (onErrorRun e s).active = false
    ∧ (onErrorRun e s).trace
      = s.trace ++ [.removeListener, .trackError e, .handleError .TRANSACTION_ERROR e]
    ∧ (cstep tr s (.eventOk h)).active = s.active
    ∧ countEv isRemoveListener (cstep tr s (.eventOk h)).trace
      = countEv isRemoveListener s.trace := by
  intro e s tr h
  refine ⟨rfl, rfl, ?_, ?_⟩ <;>
    cases hact : s.active <;>
      simp [cstep, hact, countEv, List.filter_append, isRemoveListener]

/-- Claim C4: in the completion variant, a Success outcome (trackSuccess plus
the finalized record holding the transfer and the l1hash) is produced only by
the listener's event callback; the signing callback's success branch appends
exactly one WITHDRAW progress event and nothing else, and no signal other
than a successful listener event can change the number of Success deliveries
in the trace. -/
theorem C4_success_only_from_listener :
    ∀ (tr : Transfer) (s : CState) (h : String) (t0 : List Event) (sig : CSignal),
    (cstep tr s (.txHashOk h)).trace = s.trace ++ [.progress .WITHDRAW]
    ∧ (cstep tr ⟨true, t0⟩ (.eventOk h)).trace
      = t0 ++ [.trackSuccess h, .handleDataC ⟨tr, h⟩]
    ∧ ((∃ h2, sig = CSignal.eventOk h2)
      ∨ countEv Event.isData (cstep tr s sig).trace = countEv Event.isData s.trace) := by
  intro tr s h t0 sig
  refine ⟨rfl, rfl, ?_⟩
  cases sig with
  | eventOk h2 => exact Or.inl ⟨h2, rfl⟩
  | txHashOk h2 =>
    exact Or.inr (by simp [cstep, countEv, List.filter_append, Event.isData])
  | txHashErr e =>
    exact Or.inr (by simp [cstep, onErrorRun, countEv, List.filter_append, Event.isData])
  | eventErr e =>
    refine Or.inr ?_
    cases hact : s.active <;>
      simp [cstep, onErrorRun, hact, countEv, List.filter_append, Event.isData]
  | promiseReject e =>
    exact Or.inr (by simp [cstep, onErrorRun, countEv, List.filter_append, Event.isData])

/-- Claim C5: in every completion run with a resolvable token, the listener
registration is strictly before the withdrawal submit call — the first four
events are the CONFIRM_TX progress, addListener, trackInitiated and
submitCall in that order — and addListener and submitCall each occur exactly
once in the whole trace, whatever asynchronous signals follow. -/
theorem C5_listener_registered_before_submit :
    ∀ (tok : Token) (tr : Transfer) (sigs : List CSignal),
    (completeRun (fun _ => some tok) tr sigs).trace.take 4
      = [.progress .CONFIRM_TX, .addListener, .trackInitiated, .submitCall]
    ∧ countEv isSubmitCall (completeRun (fun _ => some tok) tr sigs).trace = 1
    ∧ countEv isAddListener (completeRun (fun _ => some tok) tr sigs).trace = 1 := by
  intro tok tr sigs
  obtain ⟨d, hd, hda⟩ := foldl_trace_decomp tr sigs (completeSync (fun _ => some tok) tr)
  have hrun : (completeRun (fun _ => some tok) tr sigs).trace
      = [Event.progress .CONFIRM_TX, Event.addListener, Event.trackInitiated,
         Event.submitCall] ++ d := hd
  have hsub : d.filter isSubmitCall = [] :=
    filter_nil_of_all _ _ sigEmitted_no_submit d hda
  have hadd : d.filter isAddListener = [] :=
    filter_nil_of_all _ _ sigEmitted_no_add d hda
  refine ⟨?_, ?_, ?_⟩
  · rw [hrun]
    exact List.take_left [Event.progress .CONFIRM_TX, Event.addListener,
      Event.trackInitiated, Event.submitCall] d
  · rw [hrun]
    simp [countEv, List.filter_append, hsub, isSubmitCall]
  · rw [hrun]
    simp [countEv, List.filter_append, hadd, isAddListener]

/-- Claim C6: in the initiation variant every rejection inside the try block
is caught at the orchestrator boundary and never re-thrown to the caller
(thrown = none for every external behaviour), and a failing run ends with
exactly trackError followed by handleError(TRANSACTION_ERROR, cause) carrying
the original cause, whether the submit call or the receipt wait rejected. -/
theorem C6_initiation_errors_caught_and_recorded :
    ∀ (tok : Token) (l2 l1 : Option String) (amt : String)
      (ir : Except String String) (wr : Except String Unit) (e h e2 : String),
    (useTransferToL1Call (some tok) l2 l1 amt ir wr).thrown = none
    ∧ (useTransferToL1Call (some tok) l2 l1 amt (.error e) wr).trace
      = [.progress .CONFIRM_TX, .trackInitiated, .submitCall,
         .trackError e, .handleError .TRANSACTION_ERROR e]
    ∧ (useTransferToL1Call (some tok) l2 l1 amt (.ok h) (.error e2)).trace
      = [.progress .CONFIRM_TX, .trackInitiated, .submitCall,
         .progress .INITIATE_WITHDRAW, .waitCall,
         .trackError e2, .handleError .TRANSACTION_ERROR e2] := by
  intro tok l2 l1 amt ir wr e h e2
  refine ⟨?_, ?_, rfl⟩
  · cases ir <;> cases wr <;> rfl
  · cases wr <;> rfl

/-- Claim C7: on the success path of the initiation variant the progress
events appear in strictly increasing step order — CONFIRM_TX then
INITIATE_WITHDRAW — with no step skipped and none duplicated, and the whole
success trace is the expected sequence ending in trackSuccess and the
finalized record. -/
theorem C7_progress_steps_in_order :
    ∀ (tok : Token) (l2 l1 : Option String) (amt h : String),
    progressSteps (useTransferToL1Call (some tok) l2 l1 amt (.ok h) (.ok ())).trace
      = [.CONFIRM_TX, .INITIATE_WITHDRAW]
    ∧ (useTransferToL1Call (some tok) l2 l1 amt (.ok h) (.ok ())).trace
      = [.progress .CONFIRM_TX, .trackInitiated, .submitCall,
         .progress .INITIATE_WITHDRAW, .waitCall, .trackSuccess h,
         .handleData1 ⟨.TRANSFER_TO_L1, l2, l1, tok.name, tok.symbol, amt, h⟩] := by
  intro tok l2 l1 amt h
  exact ⟨rfl, rfl⟩

/-- Claim C9: when the decimals argument is omitted, toDecimals and
fromDecimals default to DEFAULT_DECIMALS = 18, multiplying respectively
dividing the value by 10 to the power 18. -/
theorem C9_default_decimals :
    (∀ v : ℚ, toDecimals v = v * 10 ^ (18 : ℕ))
    ∧ (∀ v : ℚ, fromDecimals v = v / 10 ^ (18 : ℕ))
    ∧ DEFAULT_DECIMALS = 18 :=
  ⟨fun _ => rfl, fun _ => rfl, rfl⟩

/-- Claim C10: in every run of the initiation variant with a resolved token,
the initiated tracking event is recorded exactly once and strictly before the
external submit call (it is the second event, the submit call the third),
including on failing runs: a run whose submit call rejects records both
trackInitiated and trackError exactly once. -/
theorem C10_initiated_once_before_submit :
    ∀ (tok : Token) (l2 l1 : Option String) (amt : String)
      (ir : Except String String) (wr : Except String Unit) (e : String),
    countEv isTrackInitiated (useTransferToL1Call (some tok) l2 l1 amt ir wr).trace = 1
    ∧ (useTransferToL1Call (some tok) l2 l1 amt ir wr).trace.take 3
      = [.progress .CONFIRM_TX, .trackInitiated, .submitCall]
    ∧ countEv isTrackInitiated
        (useTransferToL1Call (some tok) l2 l1 amt (.error e) wr).trace = 1
    ∧ countEv isTrackError
        (useTransferToL1Call (some tok) l2 l1 amt (.error e) wr).trace = 1 := by
  intro tok l2 l1 amt ir wr e
  refine ⟨?_, ?_, rfl, rfl⟩ <;> cases ir <;> cases wr <;> rfl

end StarkGate
